import Mathlib

/-!
Shallow embedding of the library-management REST service
(`src/app/library_rest_api.py`) over an explicit relational store.

Each FastAPI handler becomes a Lean function.  Handlers whose Python body is
wrapped in `try ... except Exception as e: db.rollback(); raise
HTTPException(500, str(e))` are modelled in two layers: a `_body` function
returning `Except Exc (result × Store)` (the code inside the `try`, raised
exceptions included), and a wrapper that, on any exception, rolls the store
back to its pre-call state and answers 500 with the stringified exception —
exactly what the blanket `except` clause does.  Note that FastAPI's
`HTTPException` is itself an `Exception` subclass, so a `raise
HTTPException(400/404, ...)` inside the `try` block is caught by that clause
and re-surfaced as a 500.

`db.commit()` can fail for reasons outside the program (connectivity,
constraint violations); that nondeterminism is modelled by the `commitOk`
parameter of each mutating handler: when it is `false` the commit raises and
the `except` clause rolls back.
-/

namespace LibraryApi

/-- Modelled from the spec: the `Book` row of §3 of the specification (the
`models` module the handlers import is not part of the provided sources).
`id` is the auto-assigned surrogate key; `year_published` is optional. -/
structure Book where
  id : Nat
  title : String
  author : String
  publisher : String
  topic : String
  year_published : Option Int
deriving DecidableEq

/-- Modelled from the spec: the `Reader` row of §3 of the specification. -/
structure Reader where
  id : Nat
  name : String
  address : String
  phone : String
  email : Option String
deriving DecidableEq

/-- Modelled from the spec: the `Loan` row of §3 of the specification. -/
structure Loan where
  id : Nat
  book_id : Nat
  reader_id : Nat
deriving DecidableEq

/-- The relational store: the three tables in insertion order, plus the next
surrogate key for each table. -/
structure Store where
  books : List Book
  readers : List Reader
  loans : List Loan
  nextBookId : Nat
  nextReaderId : Nat
  nextLoanId : Nat
deriving DecidableEq

/-- Outcome of a handler: a successful JSON value, or an error response with
an HTTP status code and a detail message. -/
inductive Resp (α : Type) where
  | ok : α → Resp α
  | err : Nat → String → Resp α
deriving DecidableEq

/-- An exception raised inside a handler's `try` block: either a FastAPI
`HTTPException` (status code and detail) or a database-layer error (e.g. a
failed `db.commit()`). -/
inductive Exc where
  | http : Nat → String → Exc
  | db : String → Exc
deriving DecidableEq

/-- `str(e)` for a raised exception.  For `HTTPException`, starlette's
`__str__` renders `"{status_code}: {detail}"` (brace-free here: code, then
a colon and space, then the detail); for a database error, its message. -/
def Exc.str : Exc → String
  | Exc.http code detail => toString code ++ ": " ++ detail
  | Exc.db msg => msg

/-- Request body of `POST /books/` (pydantic model `BookCreate`). -/
structure BookCreate where
  title : String
  author : String
  publisher : String
  topic : String
deriving DecidableEq

/-- The `try` block of `create_book` (POST /books/): query the first Book
with the requested title; if present raise `HTTPException(400)`; otherwise
insert a new Book and commit. -/
def create_book_body (commitOk : Bool) (s : Store) (book : BookCreate) :
    Except Exc ((String × Book) × Store) :=
  match s.books.find? (fun b => b.title == book.title) with
  | some _ => Except.error (Exc.http 400 "Book with this title already exists")
  | none =>
      let new_book : Book :=
        { id := s.nextBookId, title := book.title, author := book.author,
          publisher := book.publisher, topic := book.topic, year_published := none }
      if commitOk then
        Except.ok (("Book added successfully", new_book),
          { s with books := s.books ++ [new_book], nextBookId := s.nextBookId + 1 })
      else
        Except.error (Exc.db "commit failed")

/-- Handler for `POST /books/`: the `try` block, with the blanket
`except Exception` clause rolling back and answering 500. -/
def create_book (commitOk : Bool) (s : Store) (book : BookCreate) :
    Resp (String × Book) × Store :=
  match create_book_body commitOk s book with
  | Except.ok (v, s1) => (Resp.ok v, s1)
  | Except.error e => (Resp.err 500 e.str, s)

/-- The column names `read_books` accepts for `order_by`. -/
def allowedOrderCols : List String := ["title", "author", "publisher", "topic"]

/-- The column of a Book selected by `getattr(Book, order_by)` for the four
accepted column names. -/
def bookCol (col : String) (b : Book) : String :=
  if col == "title" then b.title
  else if col == "author" then b.author
  else if col == "publisher" then b.publisher
  else b.topic

/-- The comparison `order_by(Book).asc()` / `.desc()` passes to the store's
sort: ascending or descending by the selected column. -/
def ordLe (order_by : String) (ascending : Bool) (a b : Book) : Bool :=
  if ascending then decide (bookCol order_by a ≤ bookCol order_by b)
  else decide (bookCol order_by b ≤ bookCol order_by a)

/-- Handler for `GET /books/`: optionally order by one of the four allowed
columns (ascending or descending), then apply offset/limit.  An `order_by`
outside the list is ignored and the rows stay in insertion/id order.  No
`try` block and no error path: the result is always a plain list. -/
def read_books (s : Store) (skip limit : Nat) (order_by : String) (ascending : Bool) :
    List Book :=
  let q := s.books
  let q :=
    if order_by ∈ allowedOrderCols then q.mergeSort (ordLe order_by ascending)
    else q
  (q.drop skip).take limit

/-- Handler for `GET /books/{book_id}`: first Book with that id, or a plain
404 (no `try` block around it, so the 404 reaches the client). -/
def read_book (s : Store) (book_id : Nat) : Resp Book :=
  match s.books.find? (fun b => b.id == book_id) with
  | none => Resp.err 404 "Book not found"
  | some b => Resp.ok b

/-- The `try` block of `delete_book` (DELETE /books/{book_id}): query the
first Book with that id; raise `HTTPException(404)` if absent; otherwise
delete that row and commit. -/
def delete_book_body (commitOk : Bool) (s : Store) (book_id : Nat) :
    Except Exc (String × Store) :=
  match s.books.find? (fun b => b.id == book_id) with
  | none => Except.error (Exc.http 404 "Book not found")
  | some _ =>
      if commitOk then
        Except.ok ("Book deleted successfully",
          { s with books := s.books.eraseP (fun b => b.id == book_id) })
      else
        Except.error (Exc.db "commit failed")

/-- Handler for `DELETE /books/{book_id}`: the `try` block with the blanket
`except Exception` clause rolling back and answering 500. -/
def delete_book (commitOk : Bool) (s : Store) (book_id : Nat) :
    Resp String × Store :=
  match delete_book_body commitOk s book_id with
  | Except.ok (v, s1) => (Resp.ok v, s1)
  | Except.error e => (Resp.err 500 e.str, s)

/-- The `try` block of `delete_reader` (DELETE /readers/{reader_id}): query
the first Reader with that id; raise `HTTPException(404)` if absent;
otherwise delete every Loan whose `reader_id` matches, delete the Reader,
and commit. -/
def delete_reader_body (commitOk : Bool) (s : Store) (reader_id : Nat) :
    Except Exc (String × Store) :=
  match s.readers.find? (fun r => r.id == reader_id) with
  | none => Except.error (Exc.http 404 "Reader not found")
  | some _ =>
      if commitOk then
        Except.ok ("Reader deleted successfully and loans removed",
          { s with loans := s.loans.filter (fun l => !(l.reader_id == reader_id)),
                   readers := s.readers.eraseP (fun r => r.id == reader_id) })
      else
        Except.error (Exc.db "commit failed")

/-- Handler for `DELETE /readers/{reader_id}`: the `try` block with the
blanket `except Exception` clause rolling back and answering 500. -/
def delete_reader (commitOk : Bool) (s : Store) (reader_id : Nat) :
    Resp String × Store :=
  match delete_reader_body commitOk s reader_id with
  | Except.ok (v, s1) => (Resp.ok v, s1)
  | Except.error e => (Resp.err 500 e.str, s)

/-- Handler for `GET /books/search/`: start from all Books; Python's
`if author:` applies the author equality filter only when the parameter is
present and non-empty (truthiness of `str`), likewise for `topic`; then
offset/limit; 404 when the resulting page is empty.  No `try` block. -/
def search_books (s : Store) (author : Option String) (topic : Option String)
    (skip limit : Nat) : Resp (List Book) :=
  let q := s.books
  let q :=
    match author with
    | some a => if a.isEmpty then q else q.filter (fun b => b.author == a)
    | none => q
  let q :=
    match topic with
    | some t => if t.isEmpty then q else q.filter (fun b => b.topic == t)
    | none => q
  let books := (q.drop skip).take limit
  if books.isEmpty then Resp.err 404 "No books found with given criteria"
  else Resp.ok books

/-- Handler for `GET /loans/details/`: inner-join Loan with Book and Reader
(a Loan row survives exactly when some Book matches its `book_id` and some
Reader matches its `reader_id`), then offset/limit; 404 when the page is
empty.  No `try` block. -/
def get_loan_details (s : Store) (skip limit : Nat) : Resp (List Loan) :=
  let joined := s.loans.filter (fun l =>
    s.books.any (fun b => b.id == l.book_id) &&
    s.readers.any (fun r => r.id == l.reader_id))
  let loans := (joined.drop skip).take limit
  if loans.isEmpty then Resp.err 404 "No loans found" else Resp.ok loans

/-- Set the `publisher` attribute on the first Book whose id matches — the
row returned by `.first()` in `update_books_publisher`. -/
def setPublisherFirst (book_id : Nat) (new_publisher : String) :
    List Book → List Book
  | [] => []
  | b :: bs =>
      if b.id == book_id then { b with publisher := new_publisher } :: bs
      else b :: setPublisherFirst book_id new_publisher bs

/-- The `try` block of `update_books_publisher` (PUT /books/update_publisher/):
query the first Book with the given id; raise `HTTPException(404)` if
absent; otherwise set its `publisher` field and commit. -/
def update_books_publisher_body (commitOk : Bool) (s : Store) (book_id : Nat)
    (new_publisher : String) : Except Exc (String × Store) :=
  match s.books.find? (fun b => b.id == book_id) with
  | none => Except.error (Exc.http 404 "Book not found with the given ID")
  | some _ =>
      if commitOk then
        Except.ok ("Book updated successfully",
          { s with books := setPublisherFirst book_id new_publisher s.books })
      else
        Except.error (Exc.db "commit failed")

/-- Handler for `PUT /books/update_publisher/`: the `try` block with the
blanket `except Exception` clause rolling back and answering 500. -/
def update_books_publisher (commitOk : Bool) (s : Store) (book_id : Nat)
    (new_publisher : String) : Resp String × Store :=
  match update_books_publisher_body commitOk s book_id new_publisher with
  | Except.ok (v, s1) => (Resp.ok v, s1)
  | Except.error e => (Resp.err 500 e.str, s)

/-- The grouped rows produced by `GROUP BY Book.topic` with `count(Book.id)`:
one `(topic, count)` pair per distinct topic of the stored Books (group
order in SQL is unspecified; the model fixes the order `List.dedup`
produces). -/
def topicCounts (s : Store) : List (String × Nat) :=
  ((s.books.map (fun b => b.topic)).dedup).map
    (fun t => (t, (s.books.filter (fun b => b.topic == t)).length))

/-- Handler for `GET /books/count_by_topic/`: group Books by topic with a
count per group, apply offset/limit to the grouped rows, 404 when the page
is empty.  No `try` block. -/
def count_books_by_topic (s : Store) (skip limit : Nat) :
    Resp (List (String × Nat)) :=
  let page := ((topicCounts s).drop skip).take limit
  if page.isEmpty then Resp.err 404 "No books found" else Resp.ok page

/-! Concrete stores used to instantiate the theorems below. -/

/-- The empty store. -/
def store0 : Store := ⟨[], [], [], 1, 1, 1⟩

/-- A sample Book row. -/
def bk1 : Book := ⟨1, "T", "A", "P", "X", none⟩

/-- A store holding exactly one Book. -/
def store1 : Store := ⟨[bk1], [], [], 2, 1, 1⟩

/-- C1: creating a Book whose title already exists does NOT produce the
400 Conflict response the claim describes: the `HTTPException(400)` raised
inside the `try` block is caught by the blanket `except Exception` clause
and re-surfaced as a 500 whose detail is the stringified 400 exception.
The store is rolled back (unchanged). -/
theorem create_book_duplicate_title_responds_500 (commitOk : Bool) (s : Store)
    (book : BookCreate) (h : ∃ bk ∈ s.books, bk.title = book.title) :
    create_book commitOk s book =
      (Resp.err 500 "400: Book with this title already exists", s) := by
  obtain ⟨bk, hmem, ht⟩ := h
  have hsome : (s.books.find? fun b => b.title == book.title).isSome :=
    List.find?_isSome.mpr ⟨bk, hmem, by simp [ht]⟩
  obtain ⟨x, hx⟩ := Option.isSome_iff_exists.mp hsome
  unfold create_book create_book_body
  rw [hx]
  rfl

/-- C1 witness: a concrete duplicate-title request against `store1`. -/
theorem create_book_duplicate_title_responds_500_witness :
    (∃ bk ∈ store1.books, bk.title = "T") ∧
    create_book true store1 ⟨"T", "A2", "P2", "X2"⟩ =
      (Resp.err 500 "400: Book with this title already exists", store1) :=
  ⟨⟨bk1, by decide, by decide⟩,
   create_book_duplicate_title_responds_500 true store1 ⟨"T", "A2", "P2", "X2"⟩
     ⟨bk1, by decide, by decide⟩⟩

/-- C2: whenever `create_book` answers with an error — the duplicate-title
rejection or a failed commit — the store after the call is exactly the store
before it (the rollback leaves no partially-applied insert). -/
theorem create_book_failure_preserves_store (commitOk : Bool) (s : Store)
    (book : BookCreate) (code : Nat) (msg : String)
    (h : (create_book commitOk s book).1 = Resp.err code msg) :
    (create_book commitOk s book).2 = s := by
  unfold create_book at h ⊢
  cases hb : create_book_body commitOk s book with
  | ok p => rw [hb] at h; simp at h
  | error e => rfl

/-- C2 witness: the concrete duplicate-title failure leaves `store1` as it
was. -/
theorem create_book_failure_preserves_store_witness :
    (create_book true store1 ⟨"T", "A2", "P2", "X2"⟩).1 =
      Resp.err 500 "400: Book with this title already exists" ∧
    (create_book true store1 ⟨"T", "A2", "P2", "X2"⟩).2 = store1 :=
  ⟨by decide,
   create_book_failure_preserves_store true store1 ⟨"T", "A2", "P2", "X2"⟩
     500 "400: Book with this title already exists" (by decide)⟩

/-- C6: deleting an absent Book id leaves the store unchanged, but the
response is NOT the 404 the claim describes: the `HTTPException(404)`
raised inside the `try` block is caught by the blanket `except Exception`
clause and re-surfaced as a 500 whose detail is the stringified 404
exception. -/
theorem delete_book_absent_responds_500_unchanged (commitOk : Bool) (s : Store)
    (book_id : Nat) (h : ∀ b ∈ s.books, b.id ≠ book_id) :
    delete_book commitOk s book_id = (Resp.err 500 "404: Book not found", s) := by
  have hnone : s.books.find? (fun b => b.id == book_id) = none :=
    List.find?_eq_none.mpr (fun b hb => by simpa using h b hb)
  unfold delete_book delete_book_body
  rw [hnone]
  rfl

/-- C6 witness: deleting Book id 1 from the empty store. -/
theorem delete_book_absent_responds_500_unchanged_witness :
    (∀ b ∈ store0.books, b.id ≠ 1) ∧
    delete_book true store0 1 = (Resp.err 500 "404: Book not found", store0) :=
  ⟨by decide,
   delete_book_absent_responds_500_unchanged true store0 1 (by decide)⟩

/-- Reader rows for the cascade scenario. -/
def rd1 : Reader := ⟨1, "R1", "Addr1", "Ph1", none⟩

/-- A second Reader row. -/
def rd2 : Reader := ⟨2, "R2", "Addr2", "Ph2", none⟩

/-- A Loan of Book 1 by Reader 1. -/
def ln1 : Loan := ⟨1, 1, 1⟩

/-- A Loan of Book 1 by Reader 2. -/
def ln2 : Loan := ⟨2, 1, 2⟩

/-- A store with one Book, two Readers and one Loan per Reader. -/
def storeRL : Store := ⟨[bk1], [rd1, rd2], [ln1, ln2], 2, 3, 3⟩

/-- The store after deleting Reader 1 from `storeRL`. -/
def storeRLafter : Store := ⟨[bk1], [rd2], [ln2], 2, 3, 3⟩

/-- When the `try` block of `delete_reader` completes, the resulting loans
table is the old one with every Loan of the deleted Reader removed. -/
lemma delete_reader_body_ok_loans (commitOk : Bool) (s : Store) (reader_id : Nat)
    (p : String × Store) (h : delete_reader_body commitOk s reader_id = Except.ok p) :
    p.2.loans = s.loans.filter (fun l => !(l.reader_id == reader_id)) := by
  unfold delete_reader_body at h
  split at h
  · simp at h
  · split at h
    · cases h
      rfl
    · simp at h

/-- Every Loan returned by `get_loan_details` is a Loan of the store. -/
lemma get_loan_details_ok_mem (s : Store) (skip limit : Nat) (ls : List Loan)
    (h : get_loan_details s skip limit = Resp.ok ls) :
    ∀ l ∈ ls, l ∈ s.loans := by
  simp only [get_loan_details] at h
  split at h
  · simp at h
  · cases h
    intro l hl
    have h1 := List.mem_of_mem_drop (List.mem_of_mem_take hl)
    exact (List.mem_filter.mp h1).1

/-- C5: after a successful `delete_reader reader_id`, no Loan with that
`reader_id` remains in the store, and consequently `get_loan_details` never
returns such a Loan. -/
theorem delete_reader_cascades_loans (commitOk : Bool) (s : Store) (reader_id : Nat)
    (msg : String) (s1 : Store)
    (h : delete_reader commitOk s reader_id = (Resp.ok msg, s1)) :
    (∀ l ∈ s1.loans, l.reader_id ≠ reader_id) ∧
    (∀ skip limit ls, get_loan_details s1 skip limit = Resp.ok ls →
      ∀ l ∈ ls, l.reader_id ≠ reader_id) := by
  unfold delete_reader at h
  have hloans : s1.loans = s.loans.filter (fun l => !(l.reader_id == reader_id)) := by
    cases hb : delete_reader_body commitOk s reader_id with
    | ok p =>
        rw [hb] at h
        have hp2 : p.2 = s1 := by
          cases p; simp at h; exact h.2
        rw [← hp2]
        exact delete_reader_body_ok_loans commitOk s reader_id _ hb
    | error e => rw [hb] at h; simp at h
  have hmem : ∀ l ∈ s1.loans, l.reader_id ≠ reader_id := by
    intro l hl
    rw [hloans] at hl
    have := (List.mem_filter.mp hl).2
    simpa using this
  exact ⟨hmem, fun skip limit ls hok l hl =>
    hmem l (get_loan_details_ok_mem s1 skip limit ls hok l hl)⟩

/-- C5 witness: deleting Reader 1 from `storeRL` (checked to succeed with
result store `storeRLafter`). -/
theorem delete_reader_cascades_loans_witness :
    (∀ l ∈ storeRLafter.loans, l.reader_id ≠ 1) ∧
    (∀ skip limit ls, get_loan_details storeRLafter skip limit = Resp.ok ls →
      ∀ l ∈ ls, l.reader_id ≠ 1) :=
  delete_reader_cascades_loans true storeRL 1
    "Reader deleted successfully and loans removed" storeRLafter (by decide)

/-- The ordering `ordLe` is transitive. -/
lemma ordLe_trans (order_by : String) (ascending : Bool) (a b c : Book)
    (hab : ordLe order_by ascending a b) (hbc : ordLe order_by ascending b c) :
    ordLe order_by ascending a c = true := by
  cases ascending <;> simp [ordLe] at hab hbc ⊢
  · exact le_trans hbc hab
  · exact le_trans hab hbc

/-- The ordering `ordLe` is total. -/
lemma ordLe_total (order_by : String) (ascending : Bool) (a b : Book) :
    (ordLe order_by ascending a b || ordLe order_by ascending b a) = true := by
  cases ascending <;> simp [ordLe] <;> exact le_total _ _

/-- C7: with `order_by` among the four allowed column names, `read_books`
returns the skip/limit page of a rearrangement of the stored Books that is
sorted by that column, ascending or descending as requested; with any other
`order_by` it returns the page of the rows in insertion/id order.  Both
branches produce a plain list — there is no error path. -/
theorem read_books_order_spec (s : Store) (skip limit : Nat) (order_by : String)
    (ascending : Bool) :
    (order_by ∈ allowedOrderCols →
      ∃ q : List Book, q.Perm s.books ∧
        q.Pairwise (fun a b =>
          if ascending then bookCol order_by a ≤ bookCol order_by b
          else bookCol order_by b ≤ bookCol order_by a) ∧
        read_books s skip limit order_by ascending = (q.drop skip).take limit) ∧
    (order_by ∉ allowedOrderCols →
      read_books s skip limit order_by ascending = (s.books.drop skip).take limit) := by
  constructor
  · intro hmem
    refine ⟨s.books.mergeSort (ordLe order_by ascending),
      List.mergeSort_perm _ _, ?_, ?_⟩
    · have hs := List.sorted_mergeSort (ordLe_trans order_by ascending)
        (ordLe_total order_by ascending) s.books
      exact hs.imp (fun {a b} h => by
        cases ascending <;> simpa [ordLe] using h)
    · simp [read_books, hmem]
  · intro hmem
    simp [read_books, hmem]

/-- C7 witness: ordering `store1` by title, ascending, page 0/10. -/
theorem read_books_order_spec_witness :
    ("title" ∈ allowedOrderCols →
      ∃ q : List Book, q.Perm store1.books ∧
        q.Pairwise (fun a b =>
          if (true : Bool) then bookCol "title" a ≤ bookCol "title" b
          else bookCol "title" b ≤ bookCol "title" a) ∧
        read_books store1 0 10 "title" true = (q.drop 0).take 10) ∧
    ("title" ∉ allowedOrderCols →
      read_books store1 0 10 "title" true = (store1.books.drop 0).take 10) :=
  read_books_order_spec store1 0 10 "title" true

/-- C8: creating a Book in a store with no duplicate title succeeds, and
`read_book` at the assigned id returns a Book carrying exactly the supplied
field values.  The store is assumed well-formed in that no existing row
already carries the next surrogate key. -/
theorem create_then_get_roundtrip (s : Store) (book : BookCreate)
    (hid : ∀ b ∈ s.books, b.id ≠ s.nextBookId)
    (htitle : ∀ b ∈ s.books, b.title ≠ book.title) :
    ∃ nb s1, create_book true s book = (Resp.ok ("Book added successfully", nb), s1) ∧
      read_book s1 nb.id = Resp.ok nb ∧
      nb.title = book.title ∧ nb.author = book.author ∧
      nb.publisher = book.publisher ∧ nb.topic = book.topic := by
  have hfind : s.books.find? (fun b => b.title == book.title) = none :=
    List.find?_eq_none.mpr (fun b hb => by simpa using htitle b hb)
  refine ⟨⟨s.nextBookId, book.title, book.author, book.publisher, book.topic, none⟩,
          { s with
            books := s.books ++
              [⟨s.nextBookId, book.title, book.author, book.publisher, book.topic, none⟩],
            nextBookId := s.nextBookId + 1 },
          ?_, ?_, rfl, rfl, rfl, rfl⟩
  · unfold create_book create_book_body
    rw [hfind]
    rfl
  · have hfind2 : s.books.find? (fun b => b.id == s.nextBookId) = none :=
      List.find?_eq_none.mpr (fun b hb => by simpa using hid b hb)
    unfold read_book
    rw [List.find?_append, hfind2]
    simp

/-- C8 witness: create a Book in the empty store and read it back. -/
theorem create_then_get_roundtrip_witness :
    (∀ b ∈ store0.books, b.id ≠ store0.nextBookId) ∧
    ∃ nb s1,
      create_book true store0 ⟨"T", "A", "P", "X"⟩ =
        (Resp.ok ("Book added successfully", nb), s1) ∧
      read_book s1 nb.id = Resp.ok nb ∧
      nb.title = "T" ∧ nb.author = "A" ∧ nb.publisher = "P" ∧ nb.topic = "X" :=
  ⟨by decide,
   create_then_get_roundtrip store0 ⟨"T", "A", "P", "X"⟩ (by decide) (by decide)⟩

/-- The first Book whose id matches splits the table into a prefix without
the id, the updated row, and an untouched suffix. -/
lemma setPublisherFirst_decomp (book_id : Nat) (p : String) (l : List Book)
    (h : ∃ b ∈ l, b.id = book_id) :
    ∃ pre bk post, l = pre ++ bk :: post ∧ bk.id = book_id ∧
      (∀ x ∈ pre, x.id ≠ book_id) ∧
      setPublisherFirst book_id p l = pre ++ { bk with publisher := p } :: post := by
  induction l with
  | nil => simp at h
  | cons b bs ih =>
      by_cases hb : b.id = book_id
      · exact ⟨[], b, bs, by simp, hb, by simp, by simp [setPublisherFirst, hb]⟩
      · obtain ⟨x, hx, hxid⟩ := h
        rcases List.mem_cons.mp hx with rfl | hxbs
        · exact absurd hxid hb
        · obtain ⟨pre, bk, post, hl, hbk, hpre, hset⟩ := ih ⟨x, hxbs, hxid⟩
          refine ⟨b :: pre, bk, post, by simp [hl], hbk, ?_,
            by simp [setPublisherFirst, hb, hset]⟩
          intro y hy
          rcases List.mem_cons.mp hy with rfl | hy2
          · exact hb
          · exact hpre y hy2

/-- C9: when the Book id is present, `update_books_publisher` answers 200
and the new store differs from the old one only in that single row, whose
only changed field is `publisher` (readers, loans, key counters and the
other Book rows are syntactically untouched).  When the id is absent the
raised `HTTPException(404)` is swallowed by the blanket `except Exception`
clause, so the handler answers 500 — not the NotFound the claim requires —
with the store unchanged. -/
theorem update_books_publisher_spec (s : Store) (book_id : Nat) (new_publisher : String) :
    ((∀ b ∈ s.books, b.id ≠ book_id) →
      update_books_publisher true s book_id new_publisher =
        (Resp.err 500 "404: Book not found with the given ID", s)) ∧
    ((∃ b ∈ s.books, b.id = book_id) →
      ∃ pre bk post,
        s.books = pre ++ bk :: post ∧ bk.id = book_id ∧ (∀ x ∈ pre, x.id ≠ book_id) ∧
        update_books_publisher true s book_id new_publisher =
          (Resp.ok "Book updated successfully",
           { s with books := pre ++ { bk with publisher := new_publisher } :: post })) := by
  constructor
  · intro h
    have hnone : s.books.find? (fun b => b.id == book_id) = none :=
      List.find?_eq_none.mpr (fun b hb => by simpa using h b hb)
    unfold update_books_publisher update_books_publisher_body
    rw [hnone]
    rfl
  · intro h
    obtain ⟨pre, bk, post, hl, hbk, hpre, hset⟩ :=
      setPublisherFirst_decomp book_id new_publisher s.books h
    have hsome : (s.books.find? fun b => b.id == book_id).isSome := by
      obtain ⟨b, hb, hbid⟩ := h
      exact List.find?_isSome.mpr ⟨b, hb, by simp [hbid]⟩
    obtain ⟨x, hx⟩ := Option.isSome_iff_exists.mp hsome
    refine ⟨pre, bk, post, hl, hbk, hpre, ?_⟩
    unfold update_books_publisher update_books_publisher_body
    rw [hx]
    simp [hset]

/-- C9 witness: updating the publisher of Book 1 in `store1`, with the
present-id hypothesis discharged on the concrete store. -/
theorem update_books_publisher_spec_witness :
    (∃ b ∈ store1.books, b.id = 1) ∧
    ∃ pre bk post,
      store1.books = pre ++ bk :: post ∧ bk.id = 1 ∧ (∀ x ∈ pre, x.id ≠ 1) ∧
      update_books_publisher true store1 1 "NewP" =
        (Resp.ok "Book updated successfully",
         { store1 with books := pre ++ { bk with publisher := "NewP" } :: post }) :=
  ⟨⟨bk1, by decide, by decide⟩,
   (update_books_publisher_spec store1 1 "NewP").2 ⟨bk1, by decide, by decide⟩⟩

/-- C10: supplying an empty-string `author` or `topic` to `search_books`
behaves exactly as omitting the parameter — Python's `if author:` /
`if topic:` treats the empty string as falsy, so no equality filter is
applied. -/
theorem search_books_empty_filter_ignored (s : Store) (author topic : Option String)
    (skip limit : Nat) :
    search_books s (some "") topic skip limit = search_books s none topic skip limit ∧
    search_books s author (some "") skip limit = search_books s author none skip limit :=
  ⟨rfl, rfl⟩

/-- C3 counterexample: on a store with one Book by author "A", a search for
author "A" with skip 1 answers 404 even though the filtered subset of
matching Books is non-empty — refuting "NotFound iff the filtered subset is
empty" as universally stated. -/
theorem search_books_notfound_counterexample :
    store1.books.filter (fun b => b.author == "A") ≠ [] ∧
    search_books store1 (some "A") none 1 10 =
      Resp.err 404 "No books found with given criteria" :=
  ⟨by decide, by decide⟩

/-- Spec-side characterization of the search result: the Books matching all
supplied equality filters, AND-combined (an omitted topic imposes no
condition). -/
def specSearchSubset (s : Store) (a : String) (t : Option String) : List Book :=
  s.books.filter (fun b => b.author == a &&
    (match t with | none => true | some tv => b.topic == tv))

/-- C3 (amended): for a non-empty author filter (and non-empty topic filter
when supplied), `search_books` returns exactly the skip/limit page of the
AND-filtered subset and answers 404 exactly when that page is empty; every
returned Book is a stored Book matching all supplied filters. -/
theorem search_books_page_spec (s : Store) (a : String) (t : Option String)
    (skip limit : Nat) (ha : ¬ a.isEmpty)
    (ht : ∀ tv, t = some tv → ¬ tv.isEmpty) :
    (search_books s (some a) t skip limit =
      if ((specSearchSubset s a t).drop skip).take limit = []
      then Resp.err 404 "No books found with given criteria"
      else Resp.ok (((specSearchSubset s a t).drop skip).take limit)) ∧
    ∀ b ∈ ((specSearchSubset s a t).drop skip).take limit,
      b ∈ s.books ∧ b.author = a ∧ ∀ tv, t = some tv → b.topic = tv := by
  have hfl : search_books s (some a) t skip limit =
      (if (((specSearchSubset s a t).drop skip).take limit).isEmpty
       then Resp.err 404 "No books found with given criteria"
       else Resp.ok (((specSearchSubset s a t).drop skip).take limit)) := by
    cases t with
    | none =>
        simp only [search_books, specSearchSubset, ha, if_false, Bool.and_true,
          ite_false, Bool.false_eq_true]
    | some tv =>
        have htv : ¬ tv.isEmpty := ht tv rfl
        have hcong : List.filter (fun b => b.topic == tv && b.author == a) s.books
            = List.filter (fun b => b.author == a && (b.topic == tv)) s.books :=
          List.filter_congr (fun x _ => Bool.and_comm _ _)
        simp only [search_books, specSearchSubset, ha, htv, if_false, ite_false,
          Bool.false_eq_true, List.filter_filter]
        rw [hcong]
  constructor
  · rw [hfl]
    by_cases hp : ((specSearchSubset s a t).drop skip).take limit = []
    · simp [hp]
    · simp [hp, List.isEmpty_iff]
  · intro b hb
    have hbf : b ∈ specSearchSubset s a t :=
      List.mem_of_mem_drop (List.mem_of_mem_take hb)
    have hmf := List.mem_filter.mp hbf
    have h1 := (Bool.and_eq_true _ _).mp hmf.2
    refine ⟨hmf.1, beq_iff_eq.mp h1.1, ?_⟩
    intro tv htv
    rw [htv] at h1
    simpa using h1.2

/-- C3 witness: searching `store1` for author "A" with no topic filter,
page 0/10. -/
theorem search_books_page_spec_witness :
    (¬ ("A").isEmpty) ∧
    ((search_books store1 (some "A") none 0 10 =
        if ((specSearchSubset store1 "A" none).drop 0).take 10 = []
        then Resp.err 404 "No books found with given criteria"
        else Resp.ok (((specSearchSubset store1 "A" none).drop 0).take 10)) ∧
      ∀ b ∈ ((specSearchSubset store1 "A" none).drop 0).take 10,
        b ∈ store1.books ∧ b.author = "A" ∧
          ∀ tv, (none : Option String) = some tv → b.topic = tv) :=
  ⟨by decide,
   search_books_page_spec store1 "A" none 0 10 (by decide) (fun tv h => nomatch h)⟩

/-- C4 counterexample: on a store with one Book, `count_books_by_topic` with
skip 1 answers 404 even though Book rows exist — refuting "NotFound only
when there are no Book rows at all" as universally stated. -/
theorem count_books_by_topic_notfound_counterexample :
    store1.books ≠ [] ∧
    count_books_by_topic store1 1 10 = Resp.err 404 "No books found" :=
  ⟨by decide, by decide⟩

/-- The first components of the grouped rows are exactly the distinct topics
of the stored Books. -/
lemma topicCounts_map_fst (s : Store) :
    (topicCounts s).map Prod.fst = (s.books.map (fun b => b.topic)).dedup := by
  simp only [topicCounts, List.map_map]
  have hcomp : (Prod.fst ∘ fun t : String =>
      (t, (s.books.filter (fun b => b.topic == t)).length)) = id := rfl
  rw [hcomp, List.map_id]

/-- The per-topic counts of the grouped rows sum to the total number of
Book rows. -/
lemma topicCounts_sum (s : Store) :
    ((topicCounts s).map Prod.snd).sum = s.books.length := by
  have hcnt : ∀ t : String, (s.books.filter (fun b => b.topic == t)).length
      = (s.books.map (fun b => b.topic)).count t := by
    intro t
    rw [List.count_eq_countP, List.countP_map, ← List.countP_eq_length_filter]
    rfl
  calc ((topicCounts s).map Prod.snd).sum
      = ((s.books.map (fun b => b.topic)).dedup.map
          (fun t => (s.books.filter (fun b => b.topic == t)).length)).sum := by
        simp [topicCounts, List.map_map]
        rfl
    _ = ((s.books.map (fun b => b.topic)).dedup.map
          (fun t => (s.books.map (fun b => b.topic)).count t)).sum := by
        rw [List.map_congr_left (fun t _ => hcnt t)]
    _ = (s.books.map (fun b => b.topic)).length :=
        List.sum_map_count_dedup_eq_length _
    _ = s.books.length := List.length_map _ _

/-- C4 (amended): every successful answer of `count_books_by_topic` is a
page of the grouped rows with pairwise-distinct topics, each topic occurring
among the Books and each count the number of Books with that topic; the full
group list's counts sum to the total number of Book rows; with skip 0 and
all groups fitting in the limit the answer is exactly one pair per distinct
topic; and 404 is answered exactly when the requested page of grouped rows
is empty. -/
theorem count_books_by_topic_page_spec (s : Store) (skip limit : Nat) :
    (∀ ps, count_books_by_topic s skip limit = Resp.ok ps →
        (ps.map Prod.fst).Nodup ∧
        ∀ pr ∈ ps, pr.1 ∈ s.books.map (fun b => b.topic) ∧
          pr.2 = (s.books.filter (fun b => b.topic == pr.1)).length) ∧
    ((topicCounts s).map Prod.snd).sum = s.books.length ∧
    (skip = 0 → (topicCounts s).length ≤ limit → s.books ≠ [] →
        count_books_by_topic s skip limit = Resp.ok (topicCounts s)) ∧
    (count_books_by_topic s skip limit = Resp.err 404 "No books found" ↔
        ((topicCounts s).drop skip).take limit = []) := by
  have hdef : count_books_by_topic s skip limit =
      (if (((topicCounts s).drop skip).take limit).isEmpty
       then Resp.err 404 "No books found"
       else Resp.ok (((topicCounts s).drop skip).take limit)) := rfl
  refine ⟨?_, topicCounts_sum s, ?_, ?_⟩
  · intro ps hok
    rw [hdef] at hok
    by_cases hp : ((topicCounts s).drop skip).take limit = []
    · simp [hp] at hok
    · simp [hp, List.isEmpty_iff] at hok
      have hsub : ps.Sublist (topicCounts s) := by
        rw [← hok]
        exact (List.take_sublist _ _).trans (List.drop_sublist _ _)
      constructor
      · refine (hsub.map Prod.fst).nodup ?_
        rw [topicCounts_map_fst]
        exact List.nodup_dedup _
      · intro pr hpr
        have hmem : pr ∈ topicCounts s := hsub.mem hpr
        obtain ⟨t, hts, heq⟩ := List.mem_map.mp hmem
        rw [← heq]
        exact ⟨List.mem_dedup.mp hts, rfl⟩
  · intro h0 hlim hne
    subst h0
    have hpage : ((topicCounts s).drop 0).take limit = topicCounts s := by
      rw [List.drop_zero, List.take_of_length_le hlim]
    have hne2 : topicCounts s ≠ [] := by
      intro hc
      obtain ⟨b, hb⟩ := List.exists_mem_of_ne_nil s.books hne
      have hd : b.topic ∈ (s.books.map (fun b => b.topic)).dedup :=
        List.mem_dedup.mpr (List.mem_map.mpr ⟨b, hb, rfl⟩)
      have hf : b.topic ∈ (topicCounts s).map Prod.fst := by
        rw [topicCounts_map_fst]; exact hd
      rw [hc] at hf
      simp at hf
    rw [hdef, hpage]
    simp [hne2]
  · rw [hdef]
    by_cases hp : ((topicCounts s).drop skip).take limit = []
    · simp [hp]
    · simp [hp, List.isEmpty_iff]

/-- C4 witness: grouping `store1` by topic, page 0/10, with the store
checked non-empty. -/
theorem count_books_by_topic_page_spec_witness :
    store1.books ≠ [] ∧
    ((∀ ps, count_books_by_topic store1 0 10 = Resp.ok ps →
        (ps.map Prod.fst).Nodup ∧
        ∀ pr ∈ ps, pr.1 ∈ store1.books.map (fun b => b.topic) ∧
          pr.2 = (store1.books.filter (fun b => b.topic == pr.1)).length) ∧
      ((topicCounts store1).map Prod.snd).sum = store1.books.length ∧
      ((0 : Nat) = 0 → (topicCounts store1).length ≤ 10 → store1.books ≠ [] →
          count_books_by_topic store1 0 10 = Resp.ok (topicCounts store1)) ∧
      (count_books_by_topic store1 0 10 = Resp.err 404 "No books found" ↔
          ((topicCounts store1).drop 0).take 10 = [])) :=
  ⟨by decide, count_books_by_topic_page_spec store1 0 10⟩

end LibraryApi
